import Mathlib

/-!
# dimmer — tray menu (`src/TrayMenu.cpp`)

A shallow embedding of the popup-menu code of `TrayMenu.cpp`:

* `createMenu` (lines 57–95): builds the popup menu from the monitor list and
  the polling flag;
* `TrayMenu::windowProc` (lines 97–158): the window procedure, whose
  `WM_TRAYICON` case runs one menu session (notify, build, display, decode and
  apply the selection, notify).

The process-wide state the code reads and writes (the static `menu` handle, the
monitor provider behind `queryMonitors` / `getMonitorOpacity` /
`setMonitorOpacity`, the flag behind `isPollingEnabled` / `setPollingEnabled`,
the callback slot `popupMenuChanged`) is passed explicitly as a record `Sys`,
and every call that leaves the translation unit is appended to `Sys.log`.

`TrackPopupMenuEx` with `TPM_RETURNCMD` "takes over the message loop" (comment
at lines 116–117): while it blocks, messages are dispatched to `windowProc` on
the same thread, and the provider may start to report another monitor list.
A `WM_TRAYICON` message therefore carries what happens during its display
call (`Events`) and the identifier the call returns.

Identifiers are `DWORD`s: the decoding arithmetic is taken modulo `2 ^ 32`.
The product `MENU_ID_MONITOR_BASE * i` of `createMenu` is an `int` product,
taken here without overflow (fewer than 2147483 monitors).

`float` is IEEE-754 binary32.  Finite values are modelled exactly as
`mant * 2 ^ exp` with a sign; products and quotients are rounded to 24
significant bits, ties to even.  Infinities, NaN and the subnormal range are
not modelled: the values the menu code computes (`opacity * 100.0f` for an
opacity in `[0, 1]`, `value / 100` for `value < 1000`) stay clear of them.
-/

namespace Dimmer

/-! ## binary32 arithmetic used by the menu code -/

/-- A finite binary32 value: `(-1) ^ neg * mant * 2 ^ exp`. -/
structure F32 where
  neg : Bool
  mant : Nat
  exp : Int
deriving DecidableEq

namespace F32

/-- The rational number a finite binary32 value denotes. -/
def toRat (x : F32) : ℚ :=
  (if x.neg then -1 else 1) * (x.mant : ℚ) * (2 : ℚ) ^ x.exp

/-- Number of binary digits of `n`, computed with at most `fuel` halvings. -/
def bitLengthAux : Nat → Nat → Nat
  | 0, _ => 0
  | fuel + 1, n => if n = 0 then 0 else bitLengthAux fuel (n / 2) + 1

/-- Number of binary digits of `n` (`0` for `n = 0`). -/
def bitLength (n : Nat) : Nat := bitLengthAux n n

/-- Round `n * 2 ^ e` to at most 24 significant bits, round-to-nearest,
ties-to-even (the default rounding mode). -/
def roundSig (n : Nat) (e : Int) : Nat × Int :=
  let bits := bitLength n
  if bits ≤ 24 then (n, e)
  else
    let s := bits - 24
    let q := n / 2 ^ s
    let r := n % 2 ^ s
    let half := 2 ^ (s - 1)
    let rounded := if half < r ∨ (r = half ∧ q % 2 = 1) then q + 1 else q
    (rounded, e + (s : Int))

/-- Conversion of a small unsigned integer to `float` (exact below `2 ^ 24`,
rounded above). -/
def ofNat (n : Nat) : F32 :=
  let r := roundSig n 0
  ⟨false, r.1, r.2⟩

/-- Product of two binary32 values, `a * b`. -/
def mul (a b : F32) : F32 :=
  let r := roundSig (a.mant * b.mant) (a.exp + b.exp)
  ⟨a.neg != b.neg, r.1, r.2⟩

/-- Quotient of two binary32 values, `a / b`, for `b ≠ 0`.  The quotient of the
significands is taken with 26 or more bits plus a sticky bit, then rounded. -/
def div (a b : F32) : F32 :=
  let k := 26 + bitLength b.mant
  let num := a.mant * 2 ^ k
  let q := num / b.mant
  let sticky := if num % b.mant = 0 then 0 else 1
  let r := roundSig (2 * q + sticky) (a.exp - b.exp - (k : Int) - 1)
  ⟨a.neg != b.neg, r.1, r.2⟩

/-- The C function `round`: nearest integer, halfway cases away from zero. -/
def round (x : F32) : Int :=
  let mag : Nat :=
    if 0 ≤ x.exp then x.mant * 2 ^ x.exp.toNat
    else (2 * x.mant + 2 ^ (-x.exp).toNat) / (2 * 2 ^ (-x.exp).toNat)
  if x.neg then -(mag : Int) else (mag : Int)

end F32

/-! ## Constants -/

/-- The macro `MENU_ID_EXIT` (line 44). -/
def MENU_ID_EXIT : Nat := 500

/-- The macro `MENU_ID_POLL` (line 45). -/
def MENU_ID_POLL : Nat := 501

/-- The macro `MENU_ID_MONITOR_BASE` (line 46). -/
def MENU_ID_MONITOR_BASE : Nat := 1000

/-- The Windows message code `WM_LBUTTONUP` (from `winuser.h`). -/
def WM_LBUTTONUP : Nat := 0x0202

/-- The Windows message code `WM_RBUTTONUP` (from `winuser.h`). -/
def WM_RBUTTONUP : Nat := 0x0205

/-- Number of values of a `DWORD`. -/
def DWORD_SIZE : Nat := 2 ^ 32

/-! ## Data model -/

/-- One monitor of the provider: what `getName()` and `getMonitorOpacity(m)`
return for it. -/
structure Monitor where
  name : String
  opacity : F32
deriving DecidableEq

/-- A leaf entry of a monitor submenu, as passed to `AppendMenu`:
`MF_CHECKED` or `0`, the identifier, the title. -/
structure MenuEntry where
  checked : Bool
  id : Nat
  title : String
deriving DecidableEq

/-- An item of the root menu, as passed to `AppendMenu`. -/
inductive RootItem where
  /-- A submenu: `AppendMenu(menu, MF_POPUP, submenu, name)`. -/
  | popup (submenu : List MenuEntry) (title : String)
  /-- A separator: `AppendMenu(menu, MF_SEPARATOR, 0, L"-")`. -/
  | separator
  /-- A command: `AppendMenu(menu, MF_CHECKED / MF_UNCHECKED / 0, id, title)`. -/
  | item (checked : Bool) (id : Nat) (title : String)
deriving DecidableEq

/-- The value `windowProc` returns. -/
inductive LResult where
  | value (n : Nat)
  /-- Whatever `DefWindowProc` returns. -/
  | defWindowProc
deriving DecidableEq

/-- A call that leaves `TrayMenu.cpp`, in the order the code makes it. -/
inductive Effect where
  /-- The call `instance->popupMenuChanged(visible)`. -/
  | popupMenuChanged (visible : Bool)
  /-- The call `DestroyMenu(menu)` on the menu built by the previous `createMenu`. -/
  | destroyMenu (old : List RootItem)
  /-- The menu `createMenu` has built and returns. -/
  | menuCreated (root : List RootItem)
  /-- The call `SetForegroundWindow(hwnd)`. -/
  | setForegroundWindow
  /-- The call `TrackPopupMenuEx(menu, TPM_RETURNCMD, ...)` is entered; `handle` is the
  current content of the static `menu`. -/
  | trackPopupMenu (handle : Option (List RootItem))
  /-- The call `PostMessage(hwnd, WM_NULL, 0, 0)`. -/
  | postNull
  /-- The call `PostQuitMessage(0)`. -/
  | postQuit
  /-- The call `setPollingEnabled(enabled)`. -/
  | setPollingEnabled (enabled : Bool)
  /-- The call `setMonitorOpacity(monitor, opacity)`, with the position `monitor` was
  read from. -/
  | setMonitorOpacity (index : Nat) (monitor : Monitor) (opacity : F32)
  /-- The call `TrayMenu::notify()`, the state-changed notification. -/
  | notify
  /-- The call `DefWindowProc(hwnd, msg, wParam, lParam)`. -/
  | defWindowProc
deriving DecidableEq

/-- The state the menu code works on. -/
structure Sys where
  /-- What `queryMonitors()` returns now, with the opacity
  `getMonitorOpacity` returns for each. -/
  monitors : List Monitor
  /-- What `isPollingEnabled()` returns now. -/
  polling : Bool
  /-- The static `menu` (`nullptr` is `none`). -/
  menu : Option (List RootItem)
  /-- Whether the callback slot `popupMenuChanged` of the instance is set. -/
  popupMenuChanged : Bool
  /-- The calls made so far, oldest first. -/
  log : List Effect
deriving DecidableEq

mutual
/-- A window message delivered to `windowProc`. -/
inductive Msg where
  /-- The message `WM_TRAYICON` with `LOWORD(lParam) = type`.  When the handler reaches
  `TrackPopupMenuEx`, that call runs the message loop: `during` is what happens
  while it blocks, and `sel` is the value it returns. -/
  | trayIcon (type : Nat) (during : Events) (sel : Nat)
  /-- The message `WM_DISPLAYCHANGE`. -/
  | displayChange
  /-- Any other message. -/
  | other
/-- What happens while `TrackPopupMenuEx` runs the message loop. -/
inductive Events where
  | done
  /-- A message is dispatched to `windowProc`. -/
  | msg (m : Msg) (rest : Events)
  /-- The monitor provider starts to report another list (display hot-plug). -/
  | monitorsChanged (monitors : List Monitor) (rest : Events)
end

/-! ## The provider and the notifications (outside `TrayMenu.cpp`) -/

/-- Append a call to the log. -/
def Sys.emit (s : Sys) (e : Effect) : Sys :=
  { s with log := s.log ++ [e] }

/-- Modelled from the spec: `setPollingEnabled` is declared outside
`TrayMenu.cpp`; it sets the persistent polling flag that `isPollingEnabled`
reads. -/
def setPollingEnabled (s : Sys) (enabled : Bool) : Sys :=
  { s with polling := enabled }.emit (.setPollingEnabled enabled)

/-- Modelled from the spec: `setMonitorOpacity` is declared in `Monitor.h`, its
body is not part of `TrayMenu.cpp`; it stores `opacity` as the opacity of the
monitor given, the one at position `index` of the list just queried, and
leaves every other monitor as it is. -/
def setMonitorOpacity (s : Sys) (index : Nat) (monitor : Monitor) (opacity : F32) : Sys :=
  { s with monitors := s.monitors.set index { monitor with opacity := opacity } }.emit
    (.setMonitorOpacity index monitor opacity)

/-- Modelled from the spec: `TrayMenu::notify` is declared in `TrayMenu.h`; it
fires the state-changed callback and touches no state of the menu code. -/
def notify (s : Sys) : Sys :=
  s.emit .notify

/-! ## `createMenu` -/

/-- Line 67: `(int) round(getMonitorOpacity(m) * 100.0f)`. -/
def checkedValue (m : Monitor) : Int :=
  F32.round (F32.mul m.opacity (F32.ofNat 100))

/-- Lines 74–76: the title of entry `j`. -/
def entryTitle (j : Nat) : String :=
  if j = 0 then "off" else toString (j * 10) ++ "%"

/-- Lines 71–80, one pass of the inner loop: the entry appended for `j`. -/
def submenuEntry (baseId : Nat) (checked : Int) (j : Nat) : MenuEntry :=
  let currentValue : Nat := j * 10
  { checked := decide ((currentValue : Int) = checked),
    id := baseId + j * 10,
    title := entryTitle j }

/-- Lines 70–80: the submenu of one monitor, `j = 0 .. 9`. -/
def buildSubmenu (baseId : Nat) (checked : Int) : List MenuEntry :=
  (List.range 10).map (submenuEntry baseId checked)

/-- Lines 65–87: the loop over the monitors; `i` is the counter, which starts
at `1` and is incremented once per monitor. -/
def monitorItems : Nat → List Monitor → List RootItem
  | _, [] => []
  | i, m :: rest =>
      RootItem.popup (buildSubmenu (MENU_ID_MONITOR_BASE * i) (checkedValue m)) m.name
        :: monitorItems (i + 1) rest

/-- Lines 64–93: the items appended to the fresh root menu. -/
def menuItems (monitors : List Monitor) (poll : Bool) : List RootItem :=
  monitorItems 1 monitors ++
    [ RootItem.separator,
      RootItem.item poll MENU_ID_POLL "dim popups",
      RootItem.separator,
      RootItem.item false MENU_ID_EXIT "exit" ]

/-- The function `createMenu` (lines 57–95): destroy the previous menu if there
is one, build a new one from the provider and the polling flag, keep it in
`menu` and return it. -/
def createMenu (s : Sys) : Sys :=
  let s1 := match s.menu with
    | some old => s.emit (.destroyMenu old)
    | none => s
  let root := menuItems s1.monitors s1.polling
  { s1 with menu := some root }.emit (.menuCreated root)

/-! ## `TrayMenu::windowProc` -/

/-- Line 133: `index = (id / MENU_ID_MONITOR_BASE) - 1`, in `DWORD`
arithmetic. -/
def decodeIndex (id : Nat) : Nat :=
  (id / MENU_ID_MONITOR_BASE + DWORD_SIZE - 1) % DWORD_SIZE

/-- Line 134: `value = id - (MENU_ID_MONITOR_BASE * (index + 1))`, in `DWORD`
arithmetic. -/
def decodeValue (id : Nat) : Nat :=
  (id + DWORD_SIZE - (MENU_ID_MONITOR_BASE * (decodeIndex id + 1)) % DWORD_SIZE) % DWORD_SIZE

/-- Line 135: `opacity = (float) value / 100`. -/
def decodeOpacity (value : Nat) : F32 :=
  F32.div (F32.ofNat value) (F32.ofNat 100)

/-- Lines 123–142 of `windowProc`, "process the selection": decode the
identifier `id` (a `DWORD`) and apply it.  The flag returned is `true` when the
code leaves `windowProc` at once (`return 1` after `PostQuitMessage`). -/
def processSelection (s : Sys) (id : Nat) : Sys × Bool :=
  if id = MENU_ID_EXIT then
    (s.emit .postQuit, true)
  else if id = MENU_ID_POLL then
    (notify (setPollingEnabled s (!s.polling)), false)
  else if MENU_ID_MONITOR_BASE ≤ id then
    let index := decodeIndex id
    let value := decodeValue id
    let opacity := decodeOpacity value
    let monitors := s.monitors
    if h : index < monitors.length then
      let monitor := monitors.get ⟨index, h⟩
      (notify (setMonitorOpacity s index monitor opacity), false)
    else
      (s, false)
  else
    (s, false)

/-- Lines 144–146: `if (instance->popupMenuChanged) popupMenuChanged(visible)`. -/
def firePopupMenuChanged (s : Sys) (visible : Bool) : Sys :=
  if s.popupMenuChanged then s.emit (.popupMenuChanged visible) else s

mutual
/-- The function `TrayMenu::windowProc` (lines 97–158). -/
def windowProc (s : Sys) : Msg → Sys × LResult
  | .trayIcon type during sel =>
      if type = WM_LBUTTONUP ∨ type = WM_RBUTTONUP then
        let s1 := firePopupMenuChanged s true
        let s2 := createMenu s1
        let s3 := s2.emit .setForegroundWindow
        let s4 := runLoop (s3.emit (.trackPopupMenu s3.menu)) during
        let id := sel % DWORD_SIZE
        let s5 := s4.emit .postNull
        let r := processSelection s5 id
        if r.2 then (r.1, .value 1)
        else (firePopupMenuChanged r.1 false, .value 0)
      else (s, .value 0)
  | .displayChange => ((notify s).emit .defWindowProc, .defWindowProc)
  | .other => (s.emit .defWindowProc, .defWindowProc)
/-- The message loop `TrackPopupMenuEx` runs while it blocks. -/
def runLoop (s : Sys) : Events → Sys
  | .done => s
  | .msg m rest => runLoop (windowProc s m).1 rest
  | .monitorsChanged monitors rest => runLoop { s with monitors := monitors } rest
end

/-! ## Vocabulary of the statements -/

/-- The submenu hanging off the `i`-th item of a root menu. -/
def submenuAt (root : List RootItem) (i : Nat) : Option (List MenuEntry) :=
  match root[i]? with
  | some (.popup submenu _) => some submenu
  | _ => none

/-- The `j`-th entry of the submenu of the `i`-th item of a root menu. -/
def entryAt (root : List RootItem) (i j : Nat) : Option MenuEntry :=
  (submenuAt root i).bind (fun submenu => submenu[j]?)

/-- The four items that close every root menu (lines 89–93). -/
def menuTail (poll : Bool) : List RootItem :=
  [ RootItem.separator,
    RootItem.item poll MENU_ID_POLL "dim popups",
    RootItem.separator,
    RootItem.item false MENU_ID_EXIT "exit" ]

/-- The calls made between two states of one run. -/
def newEffects (before after : Sys) : List Effect :=
  after.log.drop before.log.length

/-- Calls the host or the provider can see: the two callbacks and the two
writes. -/
def Effect.isHostVisible : Effect → Bool
  | .popupMenuChanged _ => true
  | .setPollingEnabled _ => true
  | .setMonitorOpacity _ _ _ => true
  | .notify => true
  | _ => false

/-- Whether a call is a call of the popup-menu callback. -/
def Effect.isPopupMenuChanged : Effect → Bool
  | .popupMenuChanged _ => true
  | _ => false

/-- Whether a call is the completion of a `createMenu`. -/
def Effect.isMenuCreated : Effect → Bool
  | .menuCreated _ => true
  | _ => false

/-- Number of `createMenu` calls in a log. -/
def builds (log : List Effect) : Nat :=
  log.countP Effect.isMenuCreated

mutual
/-- Number of activation events (`WM_TRAYICON` with a button-up type) in a
message, those delivered while its menu is displayed included. -/
def Msg.activations : Msg → Nat
  | .trayIcon type during _ =>
      if type = WM_LBUTTONUP ∨ type = WM_RBUTTONUP then 1 + during.activations else 0
  | .displayChange => 0
  | .other => 0
/-- Number of activation events among the events of a message loop. -/
def Events.activations : Events → Nat
  | .done => 0
  | .msg m rest => m.activations + rest.activations
  | .monitorsChanged _ rest => rest.activations
end

/-- Whether no message is dispatched in a run of the message loop (only the
provider may change). -/
def Events.quiet : Events → Bool
  | .done => true
  | .msg _ _ => false
  | .monitorsChanged _ rest => rest.quiet

/-- The monitor list the provider reports after the events of a message loop in
which no message is dispatched. -/
def Events.lastMonitors (current : List Monitor) : Events → List Monitor
  | .done => current
  | .msg _ rest => rest.lastMonitors current
  | .monitorsChanged monitors rest => rest.lastMonitors monitors

/-- The state of a session in which no message is dispatched while the menu
is displayed, at the point where `TrackPopupMenuEx` has returned and `WM_NULL`
has been posted (lines 102–121). -/
def opened (s : Sys) (during : Events) : Sys :=
  let s3 := (createMenu (firePopupMenuChanged s true)).emit .setForegroundWindow
  let s4 := s3.emit (.trackPopupMenu s3.menu)
  { s4 with monitors := during.lastMonitors s4.monitors }.emit .postNull

/-- The state at the point where `TrackPopupMenuEx` is entered (lines 102–119):
the opening notification is fired if the callback is set, the menu is built,
the window is brought to the foreground. -/
def displayed (s : Sys) : Sys :=
  let s3 := (createMenu (firePopupMenuChanged s true)).emit .setForegroundWindow
  s3.emit (.trackPopupMenu s3.menu)

/-- The identifiers of the entries a user can choose under one root item: the
entries of a submenu, the command itself, nothing for a separator. -/
def RootItem.leafIds : RootItem → List Nat
  | .popup submenu _ => submenu.map MenuEntry.id
  | .separator => []
  | .item _ id _ => [id]

/-- The identifiers of all entries of a menu a user can choose. -/
def leafIds : List RootItem → List Nat
  | [] => []
  | item :: rest => item.leafIds ++ leafIds rest

/-- What `TrackPopupMenuEx` with `TPM_RETURNCMD` can return for a menu: 0 when
the menu is dismissed without a selection, else the identifier of the entry
chosen. -/
def returnable (root : List RootItem) (id : Nat) : Prop :=
  id = 0 ∨ id ∈ leafIds root

/-- Whether the handling of a message by `windowProc` calls neither a callback
nor the provider: any message but `WM_DISPLAYCHANGE` and the button-up
`WM_TRAYICON`. -/
def Msg.isPassive : Msg → Bool
  | .trayIcon type _ _ => !decide (type = WM_LBUTTONUP ∨ type = WM_RBUTTONUP)
  | .displayChange => false
  | .other => true

/-- Whether every message dispatched in a run of the message loop is passive. -/
def Events.passive : Events → Bool
  | .done => true
  | .msg m rest => m.isPassive && rest.passive
  | .monitorsChanged _ rest => rest.passive

/-- A left click during whose display call a `WM_DISPLAYCHANGE` is dispatched;
the menu is dismissed. -/
def clickWithDisplayChange : Msg := .trayIcon WM_LBUTTONUP (.msg .displayChange .done) 0

/-- A left click during whose display call a menu notification (handled by
`DefWindowProc`) and a mouse move over the tray icon (`WM_MOUSEMOVE`, 0x0200)
are dispatched and the provider changes to one monitor; the menu is
dismissed. -/
def clickWithPassiveTraffic : Msg :=
  .trayIcon WM_LBUTTONUP
    (.msg .other (.msg (.trayIcon 0x0200 .done 0)
      (.monitorsChanged [⟨"left", F32.ofNat 0⟩] .done))) 0

/-- The opacity `0.35f`, the `float` nearest to 35/100. -/
def opacity035 : F32 := F32.div (F32.ofNat 35) (F32.ofNat 100)

/-- A monitor whose opacity is `0.35f`. -/
def monitor035 : Monitor := ⟨"monitor", opacity035⟩

/-- Three monitors, as a provider may report them. -/
def threeMonitors : List Monitor :=
  [⟨"left", F32.ofNat 0⟩, ⟨"middle", decodeOpacity 30⟩, ⟨"right", decodeOpacity 50⟩]

/-- A fresh controller on three monitors: polling off, no menu built yet, the
popup-menu callback set, nothing called so far. -/
def freshSys : Sys := ⟨threeMonitors, false, none, true, []⟩

/-- The state at apply time of a session whose menu was built on three
monitors while the provider now reports one. -/
def shrunkSys : Sys :=
  opened freshSys (.monitorsChanged [⟨"left", F32.ofNat 0⟩] .done)

/-- The left button is released on the tray icon and the menu is dismissed or
answered with `sel`, nothing else happening meanwhile. -/
def click (sel : Nat) : Msg := .trayIcon WM_LBUTTONUP .done sel

/-- The state a fresh controller is in after a session answered with
`MENU_ID_EXIT`. -/
def afterExit : Sys := (windowProc freshSys (click MENU_ID_EXIT)).1

/-- A left click during whose display call a second left click is dispatched;
both menus are dismissed. -/
def clickDuringClick : Msg := .trayIcon WM_LBUTTONUP (.msg (click 0) .done) 0

/-! ## Lemmas on `createMenu` -/

theorem menuItems_eq (monitors : List Monitor) (poll : Bool) :
    menuItems monitors poll = monitorItems 1 monitors ++ menuTail poll := rfl

theorem monitorItems_length (i : Nat) (monitors : List Monitor) :
    (monitorItems i monitors).length = monitors.length := by
  induction monitors generalizing i with
  | nil => rfl
  | cons m rest ih => simp [monitorItems, ih]

theorem monitorItems_getElem? (i k : Nat) (monitors : List Monitor) (m : Monitor)
    (h : monitors[k]? = some m) :
    (monitorItems i monitors)[k]? =
      some (RootItem.popup (buildSubmenu (MENU_ID_MONITOR_BASE * (i + k)) (checkedValue m)) m.name) := by
  induction monitors generalizing i k with
  | nil => simp at h
  | cons m0 rest ih =>
    cases k with
    | zero =>
      simp at h
      simp [monitorItems, h]
    | succ k =>
      simp at h
      have := ih (i + 1) k h
      simp [monitorItems, this]
      congr 2
      omega

theorem monitorItems_eq_map (i : Nat) (monitors : List Monitor) :
    monitorItems i monitors =
      (monitors.enumFrom i).map (fun p =>
        RootItem.popup (buildSubmenu (MENU_ID_MONITOR_BASE * p.1) (checkedValue p.2)) p.2.name) := by
  induction monitors generalizing i with
  | nil => rfl
  | cons m rest ih => simp [monitorItems, List.enumFrom, ih]

theorem buildSubmenu_getElem? (baseId : Nat) (checked : Int) (j : Nat) (hj : j < 10) :
    (buildSubmenu baseId checked)[j]? = some (submenuEntry baseId checked j) := by
  simp [buildSubmenu, List.getElem?_map, List.getElem?_range hj]

theorem entryAt_menuItems (monitors : List Monitor) (poll : Bool) (i j : Nat) (m : Monitor)
    (hm : monitors[i]? = some m) (hj : j < 10) :
    entryAt (menuItems monitors poll) i j =
      some (submenuEntry (MENU_ID_MONITOR_BASE * (i + 1)) (checkedValue m) j) := by
  have hi : i < (monitorItems 1 monitors).length := by
    rw [monitorItems_length]
    exact (List.getElem?_eq_some_iff.mp hm).1
  have h1 := monitorItems_getElem? 1 i monitors m hm
  simp only [entryAt, submenuAt, menuItems_eq, List.getElem?_append_left hi, h1, Option.bind]
  rw [buildSubmenu_getElem? _ _ j hj]
  congr 3
  omega

theorem countP_checked_buildSubmenu (baseId : Nat) (c : Int) :
    (buildSubmenu baseId c).countP (fun e => e.checked) =
      (List.range 10).countP (fun j => decide (((j * 10 : Nat) : Int) = c)) := by
  simp only [buildSubmenu, List.countP_map]
  rfl

theorem countP_checked_of_bucket (baseId : Nat) (k : Nat) (hk : k < 10) :
    (buildSubmenu baseId (10 * (k : Int))).countP (fun e => e.checked) = 1 := by
  rw [countP_checked_buildSubmenu]
  interval_cases k <;> decide

theorem countP_checked_of_not_bucket (baseId : Nat) (c : Int)
    (h : ¬ ∃ k : Nat, k < 10 ∧ c = 10 * (k : Int)) :
    (buildSubmenu baseId c).countP (fun e => e.checked) = 0 := by
  rw [countP_checked_buildSubmenu, List.countP_eq_zero]
  intro j hj hc
  apply h
  refine ⟨j, List.mem_range.mp hj, ?_⟩
  have := of_decide_eq_true hc
  omega

theorem decodeIndex_eq (id : Nat) (h1 : MENU_ID_MONITOR_BASE ≤ id) (h2 : id < DWORD_SIZE) :
    decodeIndex id = id / MENU_ID_MONITOR_BASE - 1 := by
  simp only [decodeIndex, MENU_ID_MONITOR_BASE, DWORD_SIZE] at *
  have h3 : 1 ≤ id / 1000 := by omega
  have h4 : id / 1000 < 4294967296 := by omega
  generalize id / 1000 = q at *
  norm_num
  omega

theorem decodeValue_eq (id : Nat) (h1 : MENU_ID_MONITOR_BASE ≤ id) (h2 : id < DWORD_SIZE) :
    decodeValue id = id % MENU_ID_MONITOR_BASE := by
  rw [decodeValue, decodeIndex_eq id h1 h2]
  simp only [MENU_ID_MONITOR_BASE, DWORD_SIZE] at *
  have h3 : 1 ≤ id / 1000 := by omega
  have h5 : 1000 * (id / 1000 - 1 + 1) = id - id % 1000 := by omega
  rw [h5]
  norm_num
  omega

theorem encode_decode (i j : Nat) (hj : j < 10)
    (h : MENU_ID_MONITOR_BASE * (i + 1) + 10 * j < DWORD_SIZE) :
    decodeIndex (MENU_ID_MONITOR_BASE * (i + 1) + 10 * j) = i ∧
    decodeValue (MENU_ID_MONITOR_BASE * (i + 1) + 10 * j) = 10 * j := by
  have h1 : MENU_ID_MONITOR_BASE ≤ MENU_ID_MONITOR_BASE * (i + 1) + 10 * j := by
    simp only [MENU_ID_MONITOR_BASE]; omega
  rw [decodeIndex_eq _ h1 h, decodeValue_eq _ h1 h]
  simp only [MENU_ID_MONITOR_BASE]
  omega

/-- C1 (codec round trip): for every monitor ordinal `i < 50` and every bucket
`10 * j`, `j < 10`, the identifier `createMenu` assigns to that entry is
`MENU_ID_MONITOR_BASE * (i + 1) + 10 * j`; the selection handler decodes it
back to index `i` and value `10 * j`; and it is neither `MENU_ID_EXIT` nor
`MENU_ID_POLL` and is at least `MENU_ID_MONITOR_BASE`, so the handler takes
the set-opacity branch. -/
theorem codec_round_trip (i j : Nat) (hi : i < 50) (hj : j < 10) :
    (∀ (monitors : List Monitor) (poll : Bool), i < monitors.length →
      (entryAt (menuItems monitors poll) i j).map MenuEntry.id =
        some (MENU_ID_MONITOR_BASE * (i + 1) + 10 * j)) ∧
    decodeIndex (MENU_ID_MONITOR_BASE * (i + 1) + 10 * j) = i ∧
    decodeValue (MENU_ID_MONITOR_BASE * (i + 1) + 10 * j) = 10 * j ∧
    MENU_ID_MONITOR_BASE * (i + 1) + 10 * j ≠ MENU_ID_EXIT ∧
    MENU_ID_MONITOR_BASE * (i + 1) + 10 * j ≠ MENU_ID_POLL ∧
    MENU_ID_MONITOR_BASE ≤ MENU_ID_MONITOR_BASE * (i + 1) + 10 * j := by
  have hlt : MENU_ID_MONITOR_BASE * (i + 1) + 10 * j < DWORD_SIZE := by
    simp only [MENU_ID_MONITOR_BASE, DWORD_SIZE]; omega
  obtain ⟨h1, h2⟩ := encode_decode i j hj hlt
  refine ⟨?_, h1, h2, ?_, ?_, ?_⟩
  · intro monitors poll hlen
    have hm : monitors[i]? = some monitors[i] := List.getElem?_eq_getElem hlen
    rw [entryAt_menuItems monitors poll i j _ hm hj]
    simp only [Option.map, submenuEntry, Option.some.injEq, MENU_ID_MONITOR_BASE]
    omega
  · simp only [MENU_ID_MONITOR_BASE, MENU_ID_EXIT]; omega
  · simp only [MENU_ID_MONITOR_BASE, MENU_ID_POLL]; omega
  · simp only [MENU_ID_MONITOR_BASE]; omega

/-- Witness of C1: ordinal 2, bucket 50, identifier 3050. -/
theorem codec_round_trip_witness :
    (∀ (monitors : List Monitor) (poll : Bool), 2 < monitors.length →
      (entryAt (menuItems monitors poll) 2 5).map MenuEntry.id =
        some (MENU_ID_MONITOR_BASE * (2 + 1) + 10 * 5)) ∧
    decodeIndex (MENU_ID_MONITOR_BASE * (2 + 1) + 10 * 5) = 2 ∧
    decodeValue (MENU_ID_MONITOR_BASE * (2 + 1) + 10 * 5) = 10 * 5 ∧
    MENU_ID_MONITOR_BASE * (2 + 1) + 10 * 5 ≠ MENU_ID_EXIT ∧
    MENU_ID_MONITOR_BASE * (2 + 1) + 10 * 5 ≠ MENU_ID_POLL ∧
    MENU_ID_MONITOR_BASE ≤ MENU_ID_MONITOR_BASE * (2 + 1) + 10 * 5 :=
  codec_round_trip 2 5 (by decide) (by decide)

/-- C8 (zero-monitor snapshot and root layout): for every state, the menu
`createMenu` builds is one submenu per monitor, in provider order, labelled
with the monitor name, followed by separator, the polling toggle
(`MENU_ID_POLL`, checked iff polling is enabled), separator, exit
(`MENU_ID_EXIT`); on an empty monitor list it is exactly those four items. -/
theorem root_layout (s : Sys) (polling popupMenuChanged : Bool)
    (menu : Option (List RootItem)) (log : List Effect) :
    (createMenu s).menu =
      some ((s.monitors.enumFrom 1).map (fun p =>
          RootItem.popup (buildSubmenu (MENU_ID_MONITOR_BASE * p.1) (checkedValue p.2)) p.2.name)
        ++ [ RootItem.separator,
             RootItem.item s.polling MENU_ID_POLL "dim popups",
             RootItem.separator,
             RootItem.item false MENU_ID_EXIT "exit" ]) ∧
    ((createMenu s).menu.map List.length = some (s.monitors.length + 4)) ∧
    (createMenu ⟨[], polling, menu, popupMenuChanged, log⟩).menu =
      some [ RootItem.separator,
             RootItem.item polling MENU_ID_POLL "dim popups",
             RootItem.separator,
             RootItem.item false MENU_ID_EXIT "exit" ] := by
  refine ⟨?_, ?_, ?_⟩
  · cases hm : s.menu <;>
      simp [createMenu, hm, Sys.emit, menuItems, monitorItems_eq_map]
  · cases hm : s.menu <;>
      simp [createMenu, hm, Sys.emit, menuItems, monitorItems_length]
  · cases menu <;> simp [createMenu, Sys.emit, menuItems, monitorItems]

/-- C5, the claim fails: a monitor with opacity `0.35f` (a value in `[0, 1]`,
within `2 ^ -25` of 35/100) has `checkedValue` 35; the entry of bucket 30 of
its submenu is not checked, and no entry of the submenu is. -/
theorem checked_marker_035_counterexample :
    (0 ≤ opacity035.toRat ∧ opacity035.toRat ≤ 1 ∧
      |opacity035.toRat - 35 / 100| ≤ 1 / 2 ^ 25) ∧
    checkedValue monitor035 = 35 ∧
    entryAt (menuItems [monitor035] false) 0 3 = some ⟨false, 1030, "30%"⟩ ∧
    (submenuAt (menuItems [monitor035] false) 0).map (List.countP (fun e => e.checked)) =
      some 0 := by
  have h : opacity035 = ⟨false, 11744051, -25⟩ := by decide
  refine ⟨?_, by decide, by decide, by decide⟩
  rw [h]
  simp only [F32.toRat]
  norm_num [abs_le]

/-- C5 as amended: the entry of bucket `10 * j` in the submenu of a monitor
carries the checked marker iff `(int) round(opacity * 100.0f)`, the opacity
rounded to the nearest whole percent, equals `10 * j`; so at most one entry of
the submenu is checked, and exactly one is iff that percent is one of
0, 10, ..., 90. -/
theorem checked_marker_exact_percent (monitors : List Monitor) (poll : Bool) (i j : Nat)
    (m : Monitor) (hm : monitors[i]? = some m) (hj : j < 10) :
    (∃ e, entryAt (menuItems monitors poll) i j = some e ∧
      e.id = MENU_ID_MONITOR_BASE * (i + 1) + 10 * j ∧
      (e.checked = true ↔ checkedValue m = 10 * (j : Int))) ∧
    (∃ submenu, submenuAt (menuItems monitors poll) i = some submenu ∧
      submenu.countP (fun e => e.checked) ≤ 1 ∧
      (submenu.countP (fun e => e.checked) = 1 ↔
        ∃ k : Nat, k < 10 ∧ checkedValue m = 10 * (k : Int))) := by
  constructor
  · refine ⟨_, entryAt_menuItems monitors poll i j m hm hj, ?_, ?_⟩
    · simp only [submenuEntry, MENU_ID_MONITOR_BASE]; omega
    · simp only [submenuEntry, decide_eq_true_eq]; omega
  · have hi : i < (monitorItems 1 monitors).length := by
      rw [monitorItems_length]
      exact (List.getElem?_eq_some_iff.mp hm).1
    have h1 := monitorItems_getElem? 1 i monitors m hm
    refine ⟨buildSubmenu (MENU_ID_MONITOR_BASE * (1 + i)) (checkedValue m), ?_, ?_, ?_⟩
    · simp only [submenuAt, menuItems_eq, List.getElem?_append_left hi, h1]
    · by_cases hb : ∃ k : Nat, k < 10 ∧ checkedValue m = 10 * (k : Int)
      · obtain ⟨k, hk, hc⟩ := hb
        rw [hc, countP_checked_of_bucket _ k hk]
      · rw [countP_checked_of_not_bucket _ _ hb]; exact Nat.zero_le 1
    · constructor
      · intro h1
        by_contra hb
        rw [countP_checked_of_not_bucket _ _ hb] at h1
        exact absurd h1 (by decide)
      · rintro ⟨k, hk, hc⟩
        rw [hc, countP_checked_of_bucket _ k hk]

/-- Witness of C5 as amended: a monitor at 30 percent, entry of bucket 30. -/
theorem checked_marker_exact_percent_witness :
    (∃ e, entryAt (menuItems [⟨"monitor", decodeOpacity 30⟩] false) 0 3 = some e ∧
      e.id = MENU_ID_MONITOR_BASE * (0 + 1) + 10 * 3 ∧
      (e.checked = true ↔ checkedValue ⟨"monitor", decodeOpacity 30⟩ = 10 * ((3 : Nat) : Int))) ∧
    (∃ submenu, submenuAt (menuItems [⟨"monitor", decodeOpacity 30⟩] false) 0 = some submenu ∧
      submenu.countP (fun e => e.checked) ≤ 1 ∧
      (submenu.countP (fun e => e.checked) = 1 ↔
        ∃ k : Nat, k < 10 ∧ checkedValue ⟨"monitor", decodeOpacity 30⟩ = 10 * (k : Int))) :=
  checked_marker_exact_percent [⟨"monitor", decodeOpacity 30⟩] false 0 3
    ⟨"monitor", decodeOpacity 30⟩ rfl (by decide)

theorem decodeOpacity_bucket_toRat (j : Nat) (hj : j < 10) :
    |(decodeOpacity (10 * j)).toRat - (10 * j : ℚ) / 100| ≤ 1 / 2 ^ 25 := by
  interval_cases j
  · rw [show decodeOpacity (10 * 0) = ⟨false, 0, -34⟩ from by decide]
    norm_num [F32.toRat, abs_le]
  · rw [show decodeOpacity (10 * 1) = ⟨false, 13421773, -27⟩ from by decide]
    norm_num [F32.toRat, abs_le]
  · rw [show decodeOpacity (10 * 2) = ⟨false, 13421773, -26⟩ from by decide]
    norm_num [F32.toRat, abs_le]
  · rw [show decodeOpacity (10 * 3) = ⟨false, 10066330, -25⟩ from by decide]
    norm_num [F32.toRat, abs_le]
  · rw [show decodeOpacity (10 * 4) = ⟨false, 13421773, -25⟩ from by decide]
    norm_num [F32.toRat, abs_le]
  · rw [show decodeOpacity (10 * 5) = ⟨false, 8388608, -24⟩ from by decide]
    norm_num [F32.toRat, abs_le]
  · rw [show decodeOpacity (10 * 6) = ⟨false, 10066330, -24⟩ from by decide]
    norm_num [F32.toRat, abs_le]
  · rw [show decodeOpacity (10 * 7) = ⟨false, 11744051, -24⟩ from by decide]
    norm_num [F32.toRat, abs_le]
  · rw [show decodeOpacity (10 * 8) = ⟨false, 13421773, -24⟩ from by decide]
    norm_num [F32.toRat, abs_le]
  · rw [show decodeOpacity (10 * 9) = ⟨false, 15099494, -24⟩ from by decide]
    norm_num [F32.toRat, abs_le]

theorem processSelection_monitor (s : Sys) (id : Nat) (m : Monitor)
    (h1 : MENU_ID_MONITOR_BASE ≤ id) (hm : s.monitors[decodeIndex id]? = some m) :
    processSelection s id =
      ({ s with
          monitors := s.monitors.set (decodeIndex id)
            { m with opacity := decodeOpacity (decodeValue id) },
          log := s.log ++
            [Effect.setMonitorOpacity (decodeIndex id) m (decodeOpacity (decodeValue id)),
             Effect.notify] }, false) := by
  have hE : id ≠ MENU_ID_EXIT := by
    simp only [MENU_ID_MONITOR_BASE, MENU_ID_EXIT] at *; omega
  have hP : id ≠ MENU_ID_POLL := by
    simp only [MENU_ID_MONITOR_BASE, MENU_ID_POLL] at *; omega
  obtain ⟨hlt, hget⟩ := List.getElem?_eq_some_iff.mp hm
  simp only [processSelection, hE, hP, h1, hlt, if_true, if_false, dite_true, List.get_eq_getElem,
    hget, notify, setMonitorOpacity, Sys.emit, List.append_assoc, List.singleton_append]

theorem processSelection_noop (s : Sys) (id : Nat) (hE : id ≠ MENU_ID_EXIT)
    (hP : id ≠ MENU_ID_POLL)
    (h : id < MENU_ID_MONITOR_BASE ∨ s.monitors.length ≤ decodeIndex id) :
    processSelection s id = (s, false) := by
  simp only [processSelection, hE, hP, if_false]
  split
  · rename_i hb
    have hlen : ¬ decodeIndex id < s.monitors.length := by omega
    simp only [hlen, dite_false]
  · rfl

theorem runLoop_quiet : ∀ (during : Events) (s : Sys), during.quiet = true →
    runLoop s during = { s with monitors := during.lastMonitors s.monitors }
  | .done, s, _ => by simp [runLoop, Events.lastMonitors]
  | .msg _ _, s, h => by simp [Events.quiet] at h
  | .monitorsChanged ms rest, s, h => by
      have h2 : rest.quiet = true := by simpa [Events.quiet] using h
      simp only [runLoop, Events.lastMonitors]
      rw [runLoop_quiet rest _ h2]

theorem windowProc_quiet (s : Sys) (type sel : Nat) (during : Events)
    (ht : type = WM_LBUTTONUP ∨ type = WM_RBUTTONUP) (hq : during.quiet = true) :
    windowProc s (.trayIcon type during sel) =
      if (processSelection (opened s during) (sel % DWORD_SIZE)).2 then
        ((processSelection (opened s during) (sel % DWORD_SIZE)).1, LResult.value 1)
      else
        (firePopupMenuChanged (processSelection (opened s during) (sel % DWORD_SIZE)).1 false,
          LResult.value 0) := by
  simp only [windowProc, ht, if_true, runLoop_quiet during _ hq, opened]

theorem opened_log (s : Sys) (during : Events) :
    (opened s during).log =
      s.log ++ (if s.popupMenuChanged then [Effect.popupMenuChanged true] else []) ++
        (match s.menu with
          | some old => [Effect.destroyMenu old]
          | none => []) ++
        [Effect.menuCreated (menuItems s.monitors s.polling), Effect.setForegroundWindow,
          Effect.trackPopupMenu (some (menuItems s.monitors s.polling)), Effect.postNull] := by
  cases hc : s.popupMenuChanged <;> cases hm : s.menu <;>
    simp [opened, createMenu, firePopupMenuChanged, Sys.emit, hc, hm]

theorem opened_fields (s : Sys) (during : Events) :
    (opened s during).monitors = during.lastMonitors s.monitors ∧
    (opened s during).polling = s.polling ∧
    (opened s during).popupMenuChanged = s.popupMenuChanged ∧
    (opened s during).menu = some (menuItems s.monitors s.polling) := by
  cases hc : s.popupMenuChanged <;> cases hm : s.menu <;>
    simp [opened, createMenu, firePopupMenuChanged, Sys.emit, hc, hm]

theorem newEffects_of_log (before after : Sys) (x : List Effect)
    (h : after.log = before.log ++ x) : newEffects before after = x := by
  simp [newEffects, h]

theorem builds_emit (s : Sys) (e : Effect) :
    builds (s.emit e).log = builds s.log + (if e.isMenuCreated then 1 else 0) := by
  cases h : e.isMenuCreated <;> simp [builds, Sys.emit, List.countP_append, List.countP_cons, h]

theorem builds_createMenu (s : Sys) : builds (createMenu s).log = builds s.log + 1 := by
  cases hm : s.menu <;>
    simp [createMenu, hm, Sys.emit, builds, List.countP_append, List.countP_cons,
      Effect.isMenuCreated]

theorem builds_firePopupMenuChanged (s : Sys) (visible : Bool) :
    builds (firePopupMenuChanged s visible).log = builds s.log := by
  cases hc : s.popupMenuChanged <;>
    simp [firePopupMenuChanged, hc, Sys.emit, builds, List.countP_append, List.countP_cons,
      Effect.isMenuCreated]

theorem builds_processSelection (s : Sys) (id : Nat) :
    builds (processSelection s id).1.log = builds s.log := by
  unfold processSelection
  dsimp only
  split_ifs <;>
    simp [Sys.emit, notify, setPollingEnabled, setMonitorOpacity, builds, List.countP_append,
      List.countP_cons, Effect.isMenuCreated]

mutual
theorem builds_windowProc : ∀ (m : Msg) (s : Sys),
    builds (windowProc s m).1.log = builds s.log + m.activations
  | .trayIcon type during sel, s => by
      by_cases ht : type = WM_LBUTTONUP ∨ type = WM_RBUTTONUP
      · simp only [windowProc, ht, if_true, Msg.activations]
        split <;>
          simp only [builds_firePopupMenuChanged, builds_processSelection, builds_emit,
            builds_runLoop during, builds_createMenu, Effect.isMenuCreated] <;>
          simp <;> omega
      · simp only [windowProc, ht, if_false, Msg.activations, Nat.add_zero]
  | .displayChange, s => by
      simp [windowProc, Msg.activations, notify, builds_emit, Effect.isMenuCreated]
  | .other, s => by
      simp [windowProc, Msg.activations, builds_emit, Effect.isMenuCreated]
theorem builds_runLoop : ∀ (es : Events) (s : Sys),
    builds (runLoop s es).log = builds s.log + es.activations
  | .done, s => by simp [runLoop, Events.activations]
  | .msg m rest, s => by
      simp only [runLoop, Events.activations, builds_runLoop rest, builds_windowProc m]
      omega
  | .monitorsChanged ms rest, s => by
      simp only [runLoop, Events.activations, builds_runLoop rest]
end

/-! ## The claims on the selection handler -/

/-- C2 (apply of a set-opacity selection): for every state at apply time, every
position `i` of its monitor list and every bucket `10 * j`, `j < 10`, whose
identifier `MENU_ID_MONITOR_BASE * (i + 1) + 10 * j` fits the `DWORD` the
display call returns, the handler makes exactly two calls:
`setMonitorOpacity` on the monitor at position `i`, with the `float`
`(float) bucket / 100` (within `2 ^ -25` of bucket/100), then `notify`; no
other monitor is written, the polling flag and the menu are unchanged, and
`windowProc` does not leave early. -/
theorem set_opacity_apply (s : Sys) (i j : Nat) (m : Monitor)
    (hm : s.monitors[i]? = some m) (hj : j < 10)
    (hid : MENU_ID_MONITOR_BASE * (i + 1) + 10 * j < DWORD_SIZE) :
    processSelection s (MENU_ID_MONITOR_BASE * (i + 1) + 10 * j) =
      ({ s with
          monitors := s.monitors.set i { m with opacity := decodeOpacity (10 * j) },
          log := s.log ++
            [Effect.setMonitorOpacity i m (decodeOpacity (10 * j)), Effect.notify] }, false) ∧
    (∀ k, k ≠ i →
      (processSelection s (MENU_ID_MONITOR_BASE * (i + 1) + 10 * j)).1.monitors[k]? =
        s.monitors[k]?) ∧
    (processSelection s (MENU_ID_MONITOR_BASE * (i + 1) + 10 * j)).1.polling = s.polling ∧
    |(decodeOpacity (10 * j)).toRat - (10 * j : ℚ) / 100| ≤ 1 / 2 ^ 25 := by
  obtain ⟨h1, h2⟩ := encode_decode i j hj hid
  have hb : MENU_ID_MONITOR_BASE ≤ MENU_ID_MONITOR_BASE * (i + 1) + 10 * j := by
    simp only [MENU_ID_MONITOR_BASE]; omega
  have hp := processSelection_monitor s _ m hb (by rw [h1]; exact hm)
  rw [h1, h2] at hp
  refine ⟨hp, ?_, ?_, decodeOpacity_bucket_toRat j hj⟩
  · intro k hk
    rw [hp]
    exact List.getElem?_set_ne (Ne.symm hk)
  · rw [hp]

/-- Witness of C2: three monitors, the entry "30%" of the second one
(identifier 2030). -/
theorem set_opacity_apply_witness :
    processSelection freshSys (MENU_ID_MONITOR_BASE * (1 + 1) + 10 * 3) =
      ({ freshSys with
          monitors := freshSys.monitors.set 1
            { (⟨"middle", decodeOpacity 30⟩ : Monitor) with opacity := decodeOpacity (10 * 3) },
          log := freshSys.log ++
            [Effect.setMonitorOpacity 1 ⟨"middle", decodeOpacity 30⟩ (decodeOpacity (10 * 3)),
              Effect.notify] }, false) ∧
    (∀ k, k ≠ 1 →
      (processSelection freshSys (MENU_ID_MONITOR_BASE * (1 + 1) + 10 * 3)).1.monitors[k]? =
        freshSys.monitors[k]?) ∧
    (processSelection freshSys (MENU_ID_MONITOR_BASE * (1 + 1) + 10 * 3)).1.polling =
      freshSys.polling ∧
    |(decodeOpacity (10 * 3)).toRat - (10 * (3 : Nat) : ℚ) / 100| ≤ 1 / 2 ^ 25 :=
  set_opacity_apply freshSys 1 3 ⟨"middle", decodeOpacity 30⟩ rfl (by decide) (by decide)

/-- C4 (stale-ordinal safety): for every set-opacity identifier (at least
`MENU_ID_MONITOR_BASE`) whose decoded ordinal is not below the size of the
monitor list queried at apply time, the handler returns the state as it is:
no call at all (no `setMonitorOpacity`, no `notify`), monitors and polling flag
unchanged, and `windowProc` goes on to the closing notification. -/
theorem stale_ordinal_noop (s : Sys) (id : Nat) (hb : MENU_ID_MONITOR_BASE ≤ id)
    (hstale : s.monitors.length ≤ decodeIndex id) :
    processSelection s id = (s, false) := by
  have hE : id ≠ MENU_ID_EXIT := by
    simp only [MENU_ID_MONITOR_BASE, MENU_ID_EXIT] at *; omega
  have hP : id ≠ MENU_ID_POLL := by
    simp only [MENU_ID_MONITOR_BASE, MENU_ID_POLL] at *; omega
  exact processSelection_noop s id hE hP (Or.inr hstale)

/-- Witness of C4: the menu was built on three monitors, the provider reports
one at apply time, the selection is 3050 (third monitor, bucket 50). -/
theorem stale_ordinal_noop_witness :
    shrunkSys.monitors.length = 1 ∧ decodeIndex 3050 = 2 ∧
    (entryAt (menuItems threeMonitors false) 2 5).map MenuEntry.id = some 3050 ∧
    processSelection shrunkSys 3050 = (shrunkSys, false) :=
  ⟨by decide, by decide, by decide, stale_ordinal_noop shrunkSys 3050 (by decide) (by decide)⟩

/-- The whole session of the stale-ordinal example: built on three monitors,
one monitor left when 3050 is returned; only the two popup-menu notifications
are visible to the host. -/
theorem stale_ordinal_session :
    (windowProc freshSys
        (.trayIcon WM_RBUTTONUP (.monitorsChanged [⟨"left", F32.ofNat 0⟩] .done) 3050)).1.log =
      [Effect.popupMenuChanged true, Effect.menuCreated (menuItems threeMonitors false),
        Effect.setForegroundWindow, Effect.trackPopupMenu (some (menuItems threeMonitors false)),
        Effect.postNull, Effect.popupMenuChanged false] ∧
    (windowProc freshSys
        (.trayIcon WM_RBUTTONUP (.monitorsChanged [⟨"left", F32.ofNat 0⟩] .done) 3050)).1.monitors =
      [⟨"left", F32.ofNat 0⟩] := by
  decide

/-! ## The claims on the session -/

/-- C7, the code at the failing input: with the callback set, a left click
answered with `MENU_ID_EXIT` fires `popupMenuChanged(true)`, builds and
displays the menu, posts the quit message and returns 1; `popupMenuChanged(false)`
is never fired. -/
theorem exit_skips_closing_notification :
    (windowProc freshSys (click MENU_ID_EXIT)).1.log =
      [Effect.popupMenuChanged true, Effect.menuCreated (menuItems threeMonitors false),
        Effect.setForegroundWindow, Effect.trackPopupMenu (some (menuItems threeMonitors false)),
        Effect.postNull, Effect.postQuit] ∧
    (windowProc freshSys (click MENU_ID_EXIT)).2 = LResult.value 1 ∧
    Effect.popupMenuChanged false ∉ (windowProc freshSys (click MENU_ID_EXIT)).1.log := by
  decide

theorem processSelection_not_exit (s : Sys) (id : Nat) (hE : id ≠ MENU_ID_EXIT) :
    (processSelection s id).2 = false ∧
    ∃ x, (processSelection s id).1.log = s.log ++ x ∧
      x.filter Effect.isPopupMenuChanged = [] := by
  unfold processSelection
  dsimp only
  split_ifs
  · contradiction
  · exact ⟨rfl, [Effect.setPollingEnabled (!s.polling), Effect.notify],
      by simp [notify, setPollingEnabled, Sys.emit], rfl⟩
  · exact ⟨rfl, [Effect.setMonitorOpacity (decodeIndex id) (s.monitors.get ⟨decodeIndex id, ‹_›⟩)
        (decodeOpacity (decodeValue id)), Effect.notify],
      by simp [notify, setMonitorOpacity, Sys.emit], rfl⟩
  · exact ⟨rfl, [], by simp, rfl⟩
  · exact ⟨rfl, [], by simp, rfl⟩

/-- The part of C7 the code keeps: with the callback set, for every selection
other than `MENU_ID_EXIT`, a button-up activation during which no other
message is dispatched calls the popup-menu callback exactly twice:
`popupMenuChanged(true)` as its first call and `popupMenuChanged(false)` as
its last. -/
theorem session_boundary_unless_exit (s : Sys) (type sel : Nat) (during : Events)
    (hcb : s.popupMenuChanged = true)
    (ht : type = WM_LBUTTONUP ∨ type = WM_RBUTTONUP) (hq : during.quiet = true)
    (hsel : sel % DWORD_SIZE ≠ MENU_ID_EXIT) :
    (newEffects s (windowProc s (.trayIcon type during sel)).1).filter
        Effect.isPopupMenuChanged =
      [Effect.popupMenuChanged true, Effect.popupMenuChanged false] ∧
    (newEffects s (windowProc s (.trayIcon type during sel)).1).head? =
      some (Effect.popupMenuChanged true) ∧
    (newEffects s (windowProc s (.trayIcon type during sel)).1).getLast? =
      some (Effect.popupMenuChanged false) := by
  obtain ⟨hflag, x, hx, hfx⟩ := processSelection_not_exit (opened s during) _ hsel
  have hcb2 : (processSelection (opened s during) (sel % DWORD_SIZE)).1.popupMenuChanged = true := by
    have := (opened_fields s during).2.2.1
    revert this
    unfold processSelection
    dsimp only
    split_ifs <;> simp [notify, setPollingEnabled, setMonitorOpacity, Sys.emit, hcb]
  have hlog : (windowProc s (.trayIcon type during sel)).1.log =
      s.log ++ (Effect.popupMenuChanged true ::
        ((match s.menu with
          | some old => [Effect.destroyMenu old]
          | none => []) ++
        [Effect.menuCreated (menuItems s.monitors s.polling), Effect.setForegroundWindow,
          Effect.trackPopupMenu (some (menuItems s.monitors s.polling)), Effect.postNull] ++
        x ++ [Effect.popupMenuChanged false])) := by
    rw [windowProc_quiet s type sel during ht hq, hflag]
    simp only [Bool.false_eq_true, if_false, firePopupMenuChanged, hcb2, if_true, Sys.emit, hx,
      opened_log, hcb]
    simp
  rw [newEffects_of_log s _ _ hlog]
  refine ⟨?_, rfl, ?_⟩
  · cases s.menu <;> simp [List.filter_cons, Effect.isPopupMenuChanged, hfx]
  · rw [← List.cons_append]
    exact List.getLast?_concat _

/-- Witness of the part of C7 the code keeps: a right click answered with the
polling toggle. -/
theorem session_boundary_unless_exit_witness :
    (newEffects freshSys (windowProc freshSys (.trayIcon WM_RBUTTONUP .done MENU_ID_POLL)).1).filter
        Effect.isPopupMenuChanged =
      [Effect.popupMenuChanged true, Effect.popupMenuChanged false] ∧
    (newEffects freshSys (windowProc freshSys (.trayIcon WM_RBUTTONUP .done MENU_ID_POLL)).1).head? =
      some (Effect.popupMenuChanged true) ∧
    (newEffects freshSys
        (windowProc freshSys (.trayIcon WM_RBUTTONUP .done MENU_ID_POLL)).1).getLast? =
      some (Effect.popupMenuChanged false) :=
  session_boundary_unless_exit freshSys WM_RBUTTONUP MENU_ID_POLL .done rfl (Or.inr rfl) rfl
    (by decide)

theorem emit_log_grows (s : Sys) (e : Effect) : s.log <+: (s.emit e).log :=
  ⟨[e], rfl⟩

theorem firePopupMenuChanged_log_grows (s : Sys) (visible : Bool) :
    s.log <+: (firePopupMenuChanged s visible).log := by
  unfold firePopupMenuChanged
  split
  · exact emit_log_grows s _
  · exact List.prefix_refl _

theorem processSelection_log_grows (s : Sys) (id : Nat) :
    s.log <+: (processSelection s id).1.log := by
  unfold processSelection
  dsimp only
  split_ifs <;>
    simp [notify, setPollingEnabled, setMonitorOpacity, Sys.emit]

mutual
theorem windowProc_log_grows : ∀ (m : Msg) (s : Sys), s.log <+: (windowProc s m).1.log
  | .trayIcon type during sel, s => by
      by_cases ht : type = WM_LBUTTONUP ∨ type = WM_RBUTTONUP
      · have h := windowProc_started type during sel s ht
        exact (List.prefix_append _ _).trans h
      · simp only [windowProc, ht, if_false]
        exact List.prefix_refl _
  | .displayChange, s => by
      simp [windowProc, notify, Sys.emit]
  | .other, s => by
      simp [windowProc, Sys.emit]
theorem runLoop_log_grows : ∀ (es : Events) (s : Sys), s.log <+: (runLoop s es).log
  | .done, s => by simp [runLoop]
  | .msg m rest, s => by
      simp only [runLoop]
      exact (windowProc_log_grows m s).trans (runLoop_log_grows rest _)
  | .monitorsChanged ms rest, s => by
      simp only [runLoop]
      exact runLoop_log_grows rest { s with monitors := ms }
theorem windowProc_started : ∀ (type : Nat) (during : Events) (sel : Nat) (s : Sys),
    (type = WM_LBUTTONUP ∨ type = WM_RBUTTONUP) →
    (s.log ++ ((if s.popupMenuChanged then [Effect.popupMenuChanged true] else []) ++
        (match s.menu with
          | some old => [Effect.destroyMenu old]
          | none => []) ++
        [Effect.menuCreated (menuItems s.monitors s.polling), Effect.setForegroundWindow,
          Effect.trackPopupMenu (some (menuItems s.monitors s.polling))])) <+:
      (windowProc s (.trayIcon type during sel)).1.log
  | type, during, sel, s, ht => by
      have h4 : (((createMenu (firePopupMenuChanged s true)).emit .setForegroundWindow).emit
            (.trackPopupMenu
              ((createMenu (firePopupMenuChanged s true)).emit .setForegroundWindow).menu)).log =
          s.log ++ ((if s.popupMenuChanged then [Effect.popupMenuChanged true] else []) ++
            (match s.menu with
              | some old => [Effect.destroyMenu old]
              | none => []) ++
            [Effect.menuCreated (menuItems s.monitors s.polling), Effect.setForegroundWindow,
              Effect.trackPopupMenu (some (menuItems s.monitors s.polling))]) := by
        cases hc : s.popupMenuChanged <;> cases hm : s.menu <;>
          simp [createMenu, firePopupMenuChanged, Sys.emit, hc, hm]
      rw [← h4]
      simp only [windowProc, ht, if_true]
      refine (runLoop_log_grows during _).trans ((emit_log_grows _ Effect.postNull).trans ?_)
      refine (processSelection_log_grows _ (sel % DWORD_SIZE)).trans ?_
      split
      · exact List.prefix_refl _
      · exact firePopupMenuChanged_log_grows _ _
end

/-- C9, the claim fails: after a session in which the handler has decoded
`MENU_ID_EXIT` (the quit message is posted), a further left click answered
with `MENU_ID_POLL` runs a whole session: both popup-menu notifications, a
menu build, the display call, a write of the polling flag and `notify`. -/
theorem exit_terminality_counterexample :
    Effect.postQuit ∈ afterExit.log ∧
    newEffects afterExit (windowProc afterExit (click MENU_ID_POLL)).1 =
      [Effect.popupMenuChanged true, Effect.destroyMenu (menuItems threeMonitors false),
        Effect.menuCreated (menuItems threeMonitors false), Effect.setForegroundWindow,
        Effect.trackPopupMenu (some (menuItems threeMonitors false)), Effect.postNull,
        Effect.setPollingEnabled true, Effect.notify, Effect.popupMenuChanged false] ∧
    afterExit.polling = false ∧
    (windowProc afterExit (click MENU_ID_POLL)).1.polling = true := by
  decide

/-- C10, the claim fails: a second left click dispatched while the menu of a
first one is displayed is not dropped; the two activations make two calls of
`createMenu`, and the second call destroys the menu being displayed before the
first display call has returned. -/
theorem second_activation_counterexample :
    clickDuringClick.activations = 2 ∧
    builds (windowProc freshSys clickDuringClick).1.log = 2 ∧
    (windowProc freshSys clickDuringClick).1.log =
      [Effect.popupMenuChanged true, Effect.menuCreated (menuItems threeMonitors false),
        Effect.setForegroundWindow, Effect.trackPopupMenu (some (menuItems threeMonitors false)),
        Effect.popupMenuChanged true, Effect.destroyMenu (menuItems threeMonitors false),
        Effect.menuCreated (menuItems threeMonitors false), Effect.setForegroundWindow,
        Effect.trackPopupMenu (some (menuItems threeMonitors false)), Effect.postNull,
        Effect.popupMenuChanged false, Effect.postNull, Effect.popupMenuChanged false] := by
  decide

/-- C10 as amended: the controller keeps no session state and drops no
activation: for every state and every message, the number of `createMenu`
calls made equals the number of button-up activations delivered, those
dispatched while a menu is displayed included; and a `createMenu` that finds a
menu in `menu` destroys it before it builds the new one. -/
theorem every_activation_builds (s : Sys) (m : Msg) (monitors : List Monitor)
    (polling popupMenuChanged : Bool) (old : List RootItem) (log : List Effect) :
    builds (windowProc s m).1.log = builds s.log + m.activations ∧
    (createMenu ⟨monitors, polling, some old, popupMenuChanged, log⟩).log =
      log ++ [Effect.destroyMenu old, Effect.menuCreated (menuItems monitors polling)] := by
  refine ⟨builds_windowProc m s, ?_⟩
  simp [createMenu, Sys.emit]

/-! ## Returnable identifiers and sessions with message traffic -/

theorem leafIds_append (a b : List RootItem) : leafIds (a ++ b) = leafIds a ++ leafIds b := by
  induction a with
  | nil => rfl
  | cons x rest ih => simp [leafIds, ih]

theorem mem_leafIds_monitorItems (i0 : Nat) (monitors : List Monitor) (id : Nat)
    (h : id ∈ leafIds (monitorItems i0 monitors)) :
    ∃ k j, j < 10 ∧ id = MENU_ID_MONITOR_BASE * (i0 + k) + 10 * j := by
  induction monitors generalizing i0 with
  | nil => simp [monitorItems, leafIds] at h
  | cons m rest ih =>
    simp only [monitorItems, leafIds, RootItem.leafIds, List.mem_append, List.mem_map] at h
    rcases h with ⟨e, he, rfl⟩ | h
    · simp only [buildSubmenu, List.mem_map, List.mem_range] at he
      obtain ⟨j, hj, rfl⟩ := he
      exact ⟨0, j, hj, by simp only [submenuEntry, MENU_ID_MONITOR_BASE]; omega⟩
    · obtain ⟨k, j, hj, hid⟩ := ih (i0 + 1) h
      exact ⟨k + 1, j, hj, by rw [hid]; congr 2; omega⟩

theorem mem_leafIds_menuItems (monitors : List Monitor) (poll : Bool) (id : Nat)
    (h : id ∈ leafIds (menuItems monitors poll)) :
    id = MENU_ID_POLL ∨ id = MENU_ID_EXIT ∨
      ∃ i j, j < 10 ∧ id = MENU_ID_MONITOR_BASE * (i + 1) + 10 * j := by
  rw [menuItems_eq, leafIds_append, List.mem_append] at h
  rcases h with h | h
  · obtain ⟨k, j, hj, hid⟩ := mem_leafIds_monitorItems 1 monitors id h
    exact Or.inr (Or.inr ⟨k, j, hj, by rw [hid]; congr 2; omega⟩)
  · simp [menuTail, leafIds, RootItem.leafIds] at h
    rcases h with h | h
    · exact Or.inl h
    · exact Or.inr (Or.inl h)

/-- C3 (unknown identifiers are no-ops): for every menu `createMenu` builds and
every identifier the display call can return for it (0 when dismissed, or the
identifier of one of its entries), and also for every identifier below
`MENU_ID_MONITOR_BASE`: if the identifier is not `MENU_ID_EXIT`, not
`MENU_ID_POLL` and not the identifier of a pair (monitor ordinal, bucket in
0, 10, ..., 90), then for every monitor list and polling flag at apply time the
handler returns the state as it is: no `setMonitorOpacity`, no change of the
polling flag, no `notify`, no call at all. -/
theorem unknown_identifier_noop (s : Sys) (monitors : List Monitor) (poll : Bool) (id : Nat)
    (hret : returnable (menuItems monitors poll) id ∨ id < MENU_ID_MONITOR_BASE)
    (hE : id ≠ MENU_ID_EXIT) (hP : id ≠ MENU_ID_POLL)
    (hpair : ∀ i j : Nat, j < 10 → id ≠ MENU_ID_MONITOR_BASE * (i + 1) + 10 * j) :
    processSelection s id = (s, false) := by
  apply processSelection_noop s id hE hP
  left
  rcases hret with (h0 | hmem) | hlt
  · rw [h0]; decide
  · rcases mem_leafIds_menuItems monitors poll id hmem with h | h | ⟨i, j, hj, h⟩
    · exact absurd h hP
    · exact absurd h hE
    · exact absurd h (hpair i j hj)
  · exact hlt

/-- Witness of C3: the menu built on three monitors is dismissed, the display
call returns 0. -/
theorem unknown_identifier_noop_witness :
    processSelection shrunkSys 0 = (shrunkSys, false) :=
  unknown_identifier_noop shrunkSys threeMonitors false 0 (Or.inl (Or.inl rfl)) (by decide)
    (by decide) (by intro i j _; simp only [MENU_ID_MONITOR_BASE]; omega)

theorem windowProc_session (s : Sys) (type sel : Nat) (during : Events)
    (ht : type = WM_LBUTTONUP ∨ type = WM_RBUTTONUP) :
    windowProc s (.trayIcon type during sel) =
      if (processSelection ((runLoop (displayed s) during).emit .postNull)
          (sel % DWORD_SIZE)).2 then
        ((processSelection ((runLoop (displayed s) during).emit .postNull)
          (sel % DWORD_SIZE)).1, LResult.value 1)
      else
        (firePopupMenuChanged (processSelection ((runLoop (displayed s) during).emit .postNull)
          (sel % DWORD_SIZE)).1 false, LResult.value 0) := by
  simp only [windowProc, ht, if_true, displayed]

theorem displayed_log (s : Sys) :
    (displayed s).log =
      s.log ++ ((if s.popupMenuChanged then [Effect.popupMenuChanged true] else []) ++
        (match s.menu with
          | some old => [Effect.destroyMenu old]
          | none => []) ++
        [Effect.menuCreated (menuItems s.monitors s.polling), Effect.setForegroundWindow,
          Effect.trackPopupMenu (some (menuItems s.monitors s.polling))]) := by
  cases hc : s.popupMenuChanged <;> cases hm : s.menu <;>
    simp [displayed, createMenu, firePopupMenuChanged, Sys.emit, hc, hm]

theorem displayed_fields (s : Sys) :
    (displayed s).monitors = s.monitors ∧ (displayed s).polling = s.polling ∧
    (displayed s).popupMenuChanged = s.popupMenuChanged := by
  cases hc : s.popupMenuChanged <;> cases hm : s.menu <;>
    simp [displayed, createMenu, firePopupMenuChanged, Sys.emit, hc, hm]

theorem processSelection_callback (s : Sys) (id : Nat) :
    (processSelection s id).1.popupMenuChanged = s.popupMenuChanged := by
  unfold processSelection
  dsimp only
  split_ifs <;> simp [notify, setPollingEnabled, setMonitorOpacity, Sys.emit]

theorem firePopupMenuChanged_callback (s : Sys) (visible : Bool) :
    (firePopupMenuChanged s visible).popupMenuChanged = s.popupMenuChanged := by
  unfold firePopupMenuChanged
  split <;> simp [Sys.emit]

mutual
theorem windowProc_callback : ∀ (m : Msg) (s : Sys),
    (windowProc s m).1.popupMenuChanged = s.popupMenuChanged
  | .trayIcon type during sel, s => by
      by_cases ht : type = WM_LBUTTONUP ∨ type = WM_RBUTTONUP
      · rw [windowProc_session s type sel during ht]
        split
        · simp only [processSelection_callback, Sys.emit, runLoop_callback during,
            (displayed_fields s).2.2]
        · simp only [firePopupMenuChanged_callback, processSelection_callback, Sys.emit,
            runLoop_callback during, (displayed_fields s).2.2]
      · simp only [windowProc, ht, if_false]
  | .displayChange, s => by simp [windowProc, notify, Sys.emit]
  | .other, s => by simp [windowProc, Sys.emit]
theorem runLoop_callback : ∀ (es : Events) (s : Sys),
    (runLoop s es).popupMenuChanged = s.popupMenuChanged
  | .done, s => by simp [runLoop]
  | .msg m rest, s => by
      simp only [runLoop]
      rw [runLoop_callback rest, windowProc_callback m]
  | .monitorsChanged ms rest, s => by
      simp only [runLoop]
      rw [runLoop_callback rest]
end

theorem runLoop_passive : ∀ (during : Events) (s : Sys), during.passive = true →
    ∃ k, runLoop s during =
      { s with monitors := during.lastMonitors s.monitors,
               log := s.log ++ List.replicate k Effect.defWindowProc }
  | .done, s, _ => ⟨0, by simp [runLoop, Events.lastMonitors]⟩
  | .msg (.trayIcon type d sel) rest, s, h => by
      simp only [Events.passive, Msg.isPassive, Bool.and_eq_true, Bool.not_eq_true',
        decide_eq_false_iff_not] at h
      obtain ⟨k, hk⟩ := runLoop_passive rest s h.2
      exact ⟨k, by simp only [runLoop, windowProc, h.1, if_false, hk, Events.lastMonitors]⟩
  | .msg .displayChange rest, s, h => by simp [Events.passive, Msg.isPassive] at h
  | .msg .other rest, s, h => by
      simp only [Events.passive, Msg.isPassive, Bool.true_and] at h
      obtain ⟨k, hk⟩ := runLoop_passive rest (s.emit .defWindowProc) h
      refine ⟨k + 1, ?_⟩
      simp only [runLoop, windowProc]
      rw [hk]
      simp only [Events.lastMonitors, Sys.emit, List.append_assoc, List.singleton_append,
        List.replicate_succ]
  | .monitorsChanged ms rest, s, h => by
      simp only [Events.passive] at h
      obtain ⟨k, hk⟩ := runLoop_passive rest { s with monitors := ms } h
      exact ⟨k, by simp only [runLoop, hk, Events.lastMonitors]⟩

/-- C6, the claim fails: with the callback set, a left click whose display call
returns 0 while a `WM_DISPLAYCHANGE` is dispatched fires the state-changed
notification between `popupMenuChanged(true)` and `popupMenuChanged(false)`. -/
theorem cancel_path_counterexample :
    freshSys.popupMenuChanged = true ∧
    (newEffects freshSys (windowProc freshSys clickWithDisplayChange).1).filter
        Effect.isHostVisible =
      [Effect.popupMenuChanged true, Effect.notify, Effect.popupMenuChanged false] := by
  decide

/-- C6 as amended: with the callback set, for every monitor list and polling
flag, a button-up activation whose display call returns 0 fires
`popupMenuChanged(true)` before it builds and displays the menu and, once the
display call has returned, only posts `WM_NULL` and fires
`popupMenuChanged(false)`: the handler itself writes nothing and does not fire
`notify`, and returns 0; whatever else is called is called by the handling of
the messages dispatched while the menu is displayed.  When none of these is a
`WM_DISPLAYCHANGE` or a button-up activation, the calls visible to the host
are exactly `popupMenuChanged(true)`, `popupMenuChanged(false)`, the polling
flag is unchanged and the monitors are those the provider reports. -/
theorem cancel_path (s : Sys) (type : Nat) (during : Events)
    (hcb : s.popupMenuChanged = true)
    (ht : type = WM_LBUTTONUP ∨ type = WM_RBUTTONUP) :
    windowProc s (.trayIcon type during 0) =
      (((runLoop (displayed s) during).emit Effect.postNull).emit
        (Effect.popupMenuChanged false), LResult.value 0) ∧
    (displayed s).log =
      s.log ++ (Effect.popupMenuChanged true ::
        ((match s.menu with
          | some old => [Effect.destroyMenu old]
          | none => []) ++
        [Effect.menuCreated (menuItems s.monitors s.polling), Effect.setForegroundWindow,
          Effect.trackPopupMenu (some (menuItems s.monitors s.polling))])) ∧
    (during.passive = true →
      (newEffects s (windowProc s (.trayIcon type during 0)).1).filter Effect.isHostVisible =
        [Effect.popupMenuChanged true, Effect.popupMenuChanged false] ∧
      (windowProc s (.trayIcon type during 0)).1.polling = s.polling ∧
      (windowProc s (.trayIcon type during 0)).1.monitors = during.lastMonitors s.monitors) := by
  obtain ⟨hmon, hpoll, hcb2⟩ := displayed_fields s
  have hsel : ∀ x : Sys, processSelection x (0 % DWORD_SIZE) = (x, false) := fun x =>
    processSelection_noop _ _ (by decide) (by decide) (Or.inl (by decide))
  have hw : windowProc s (.trayIcon type during 0) =
      (((runLoop (displayed s) during).emit Effect.postNull).emit
        (Effect.popupMenuChanged false), LResult.value 0) := by
    rw [windowProc_session s type 0 during ht, hsel]
    have : ((runLoop (displayed s) during).emit Effect.postNull).popupMenuChanged = true := by
      simp only [Sys.emit, runLoop_callback during, hcb2, hcb]
    simp [firePopupMenuChanged, this]
  have hlog : (displayed s).log =
      s.log ++ (Effect.popupMenuChanged true ::
        ((match s.menu with
          | some old => [Effect.destroyMenu old]
          | none => []) ++
        [Effect.menuCreated (menuItems s.monitors s.polling), Effect.setForegroundWindow,
          Effect.trackPopupMenu (some (menuItems s.monitors s.polling))])) := by
    rw [displayed_log, hcb]
    simp
  refine ⟨hw, hlog, ?_⟩
  intro hp
  obtain ⟨k, hk⟩ := runLoop_passive during (displayed s) hp
  rw [hw, hk]
  refine ⟨?_, hpoll, ?_⟩
  · have hl : (({ displayed s with
          monitors := during.lastMonitors (displayed s).monitors,
          log := (displayed s).log ++ List.replicate k Effect.defWindowProc }.emit
            Effect.postNull).emit (Effect.popupMenuChanged false)).log =
        s.log ++ (Effect.popupMenuChanged true ::
          ((match s.menu with
            | some old => [Effect.destroyMenu old]
            | none => []) ++
          [Effect.menuCreated (menuItems s.monitors s.polling), Effect.setForegroundWindow,
            Effect.trackPopupMenu (some (menuItems s.monitors s.polling))] ++
          List.replicate k Effect.defWindowProc ++
          [Effect.postNull, Effect.popupMenuChanged false])) := by
      simp only [Sys.emit, hlog]
      simp
    rw [newEffects_of_log s _ _ hl]
    cases s.menu <;>
      simp [List.filter_cons, List.filter_append, Effect.isHostVisible, List.filter_replicate]
  · simp only [Sys.emit, hmon]

/-- Witness of C6 as amended: a left click on a fresh controller; a menu
notification and a mouse move are dispatched and the provider changes while
the menu is displayed; the menu is dismissed. -/
theorem cancel_path_witness :
    windowProc freshSys clickWithPassiveTraffic =
      (((runLoop (displayed freshSys) (.msg .other (.msg (.trayIcon 0x0200 .done 0)
          (.monitorsChanged [⟨"left", F32.ofNat 0⟩] .done)))).emit Effect.postNull).emit
        (Effect.popupMenuChanged false), LResult.value 0) ∧
    (newEffects freshSys (windowProc freshSys clickWithPassiveTraffic).1).filter
        Effect.isHostVisible =
      [Effect.popupMenuChanged true, Effect.popupMenuChanged false] ∧
    (windowProc freshSys clickWithPassiveTraffic).1.polling = false ∧
    (windowProc freshSys clickWithPassiveTraffic).1.monitors = [⟨"left", F32.ofNat 0⟩] :=
  ⟨(cancel_path freshSys WM_LBUTTONUP _ rfl (Or.inl rfl)).1,
    (cancel_path freshSys WM_LBUTTONUP _ rfl (Or.inl rfl)).2.2 rfl⟩

/-- C9 as amended: in a session answered with `MENU_ID_EXIT`, once the display
call has returned the handler only posts `WM_NULL` and the quit message and
leaves `windowProc` with 1: it writes nothing, fires no `notify` and no
closing notification, and changes no state, so nothing records that Exit was
decoded.  A button-up activation delivered to the state such a session leaves
is handled like any other: it fires `popupMenuChanged(true)` if the callback is
set, builds a menu from the current provider state (one more `createMenu` call,
plus one per activation dispatched meanwhile) and displays it. -/
theorem exit_not_terminal (s0 s : Sys) (type0 type sel : Nat) (during0 during : Events)
    (ht0 : type0 = WM_LBUTTONUP ∨ type0 = WM_RBUTTONUP)
    (hs : s = (windowProc s0 (.trayIcon type0 during0 MENU_ID_EXIT)).1)
    (ht : type = WM_LBUTTONUP ∨ type = WM_RBUTTONUP) :
    windowProc s0 (.trayIcon type0 during0 MENU_ID_EXIT) =
      (((runLoop (displayed s0) during0).emit Effect.postNull).emit Effect.postQuit,
        LResult.value 1) ∧
    (∀ x : Sys, processSelection x MENU_ID_EXIT = (x.emit Effect.postQuit, true)) ∧
    s.monitors = (runLoop (displayed s0) during0).monitors ∧
    s.polling = (runLoop (displayed s0) during0).polling ∧
    s.menu = (runLoop (displayed s0) during0).menu ∧
    builds (windowProc s (.trayIcon type during sel)).1.log =
      builds s.log + 1 + during.activations ∧
    (s.log ++ ((if s.popupMenuChanged then [Effect.popupMenuChanged true] else []) ++
        (match s.menu with
          | some old => [Effect.destroyMenu old]
          | none => []) ++
        [Effect.menuCreated (menuItems s.monitors s.polling), Effect.setForegroundWindow,
          Effect.trackPopupMenu (some (menuItems s.monitors s.polling))])) <+:
      (windowProc s (.trayIcon type during sel)).1.log := by
  have h500 : MENU_ID_EXIT % DWORD_SIZE = MENU_ID_EXIT := by decide
  have hx : ∀ x : Sys, processSelection x MENU_ID_EXIT = (x.emit Effect.postQuit, true) := by
    intro x
    simp only [processSelection, if_true]
  have hw : windowProc s0 (.trayIcon type0 during0 MENU_ID_EXIT) =
      (((runLoop (displayed s0) during0).emit Effect.postNull).emit Effect.postQuit,
        LResult.value 1) := by
    rw [windowProc_session s0 type0 _ during0 ht0, h500, hx]
    simp
  refine ⟨hw, hx, ?_, ?_, ?_, ?_, windowProc_started type during sel s ht⟩
  · rw [hs, hw]; rfl
  · rw [hs, hw]; rfl
  · rw [hs, hw]; rfl
  · rw [builds_windowProc]
    simp only [Msg.activations, ht, if_true]
    omega

/-- Witness of C9 as amended: the state after an exit session, then a right
click answered with the entry "50%" of the first monitor. -/
theorem exit_not_terminal_witness :
    windowProc freshSys (.trayIcon WM_LBUTTONUP .done MENU_ID_EXIT) =
      (((runLoop (displayed freshSys) .done).emit Effect.postNull).emit Effect.postQuit,
        LResult.value 1) ∧
    (∀ x : Sys, processSelection x MENU_ID_EXIT = (x.emit Effect.postQuit, true)) ∧
    afterExit.monitors = (runLoop (displayed freshSys) .done).monitors ∧
    afterExit.polling = (runLoop (displayed freshSys) .done).polling ∧
    afterExit.menu = (runLoop (displayed freshSys) .done).menu ∧
    builds (windowProc afterExit (.trayIcon WM_RBUTTONUP .done 1050)).1.log =
      builds afterExit.log + 1 + Events.done.activations ∧
    (afterExit.log ++ ((if afterExit.popupMenuChanged then [Effect.popupMenuChanged true] else []) ++
        (match afterExit.menu with
          | some old => [Effect.destroyMenu old]
          | none => []) ++
        [Effect.menuCreated (menuItems afterExit.monitors afterExit.polling),
          Effect.setForegroundWindow,
          Effect.trackPopupMenu (some (menuItems afterExit.monitors afterExit.polling))])) <+:
      (windowProc afterExit (.trayIcon WM_RBUTTONUP .done 1050)).1.log :=
  exit_not_terminal freshSys afterExit WM_LBUTTONUP WM_RBUTTONUP 1050 .done .done (Or.inl rfl) rfl
    (Or.inr rfl)

end Dimmer
